import Mathlib

/-!
Shallow embedding of the CHIP-8 emulator (chip8.py) and verification of the
specification claims about it.

The CPU state (class Chip8CPU) is a record; Python lists become Lean lists,
Python integers become natural numbers (with Int used locally where the
source computes a possibly negative intermediate value).  Reads and writes
of a single list index mirror Python semantics: an out-of-range index raises
IndexError, which the embedding models by returning none.  Python slice
reads and slice assignments never raise; they are modelled by total
functions pySlice / pySliceSet below that reproduce clamping and the
insert/extend behaviour of list slice assignment.  The two instructions that
call random.randint receive the value produced by that call as an explicit
argument rnd.
-/

def START_ADDRESS : Nat := 0x200

def SCREEN_WIDTH : Nat := 64

def SCREEN_HEIGHT : Nat := 32

structure Chip8State where
  memory : List Nat
  program_counter : Nat
  stack : List Nat
  v_registers : List Nat
  i_register : Nat
  delay_timer : Nat
  sound_timer : Nat
  inputs : List Nat
  screen : List (List Nat)
  deriving DecidableEq

/-- Python `l[i]` for a nonnegative index: the element, or IndexError (none). -/
def pyGet (l : List Nat) (i : Nat) : Option Nat := l.get? i

/-- Python `l[i] = v` for a nonnegative index: IndexError (none) when out of range. -/
def pySet (l : List Nat) (i : Nat) (v : Nat) : Option (List Nat) :=
  if i < l.length then some (l.set i v) else none

/-- Python slice read `l[a:b]` for nonnegative bounds (clamped, never raises). -/
def pySlice (l : List Nat) (a b : Nat) : List Nat := (l.take b).drop a

/-- Python slice assignment `l[a:b] = xs` for nonnegative bounds: replaces the
clamped range [a, b) by xs, inserting at the clamped start when the range is
empty; the list length may change. -/
def pySliceSet (l : List Nat) (a b : Nat) (xs : List Nat) : List Nat :=
  l.take a ++ xs ++ l.drop (max a b)

/-- Write register index i (Chip8CPU.v_registers[i] = v). -/
def setV (s : Chip8State) (i v : Nat) : Option Chip8State :=
  (pySet s.v_registers i v).map fun l => { s with v_registers := l }

/-- Chip8CPU.reset_screen: a SCREEN_HEIGHT x SCREEN_WIDTH grid of zeros. -/
def reset_screen (s : Chip8State) : Chip8State :=
  { s with screen := List.replicate SCREEN_HEIGHT (List.replicate SCREEN_WIDTH 0) }

/-- Chip8CPU.get_pixel: returns screen[y][x]. -/
def get_pixel (s : Chip8State) (x y : Nat) : Option Nat := do
  let row ← s.screen.get? y
  row.get? x

/-- Chip8CPU.set_pixel: screen[y][x] = value. -/
def set_pixel (s : Chip8State) (x y value : Nat) : Option Chip8State := do
  let row ← s.screen.get? y
  if x < row.length then
    return { s with screen := s.screen.set y (row.set x value) }
  else none

/-- OP0NNN.execute: calls RCA 1802 program at NNN; the body is `pass`. -/
def execOP0NNN (_opcode : Nat) (s : Chip8State) : Option Chip8State :=
  some s

/-- OP00E0.execute: clears the screen. -/
def execOP00E0 (_opcode : Nat) (s : Chip8State) : Option Chip8State :=
  some (reset_screen s)

/-- OP00EE.execute: program_counter = stack.pop() (pop takes the last element;
popping an empty list raises). -/
def execOP00EE (_opcode : Nat) (s : Chip8State) : Option Chip8State :=
  match s.stack.getLast? with
  | none => none
  | some a => some { s with program_counter := a, stack := s.stack.dropLast }

/-- OP1NNN.execute: program_counter = nnn; program_counter -= 2.
(The source works on Python integers; nnn is at least 2 for any program
whose jump target is a real address, so natural subtraction agrees.) -/
def execOP1NNN (opcode : Nat) (s : Chip8State) : Option Chip8State :=
  let nnn := opcode &&& 0x0fff
  some { s with program_counter := nnn - 2 }

/-- OP2NNN.execute: stack.append(program_counter); program_counter = nnn - 2. -/
def execOP2NNN (opcode : Nat) (s : Chip8State) : Option Chip8State :=
  let nnn := opcode &&& 0x0fff
  some { s with stack := s.stack ++ [s.program_counter], program_counter := nnn - 2 }

/-- OP3XNN.execute: skip next instruction if VX == NN. -/
def execOP3XNN (opcode : Nat) (s : Chip8State) : Option Chip8State := do
  let x := (opcode &&& 0x0f00) >>> 8
  let nn := opcode &&& 0x00ff
  let vx ← pyGet s.v_registers x
  if vx == nn then
    return { s with program_counter := s.program_counter + 2 }
  else
    return s

/-- OP4XNN.execute: skip next instruction if VX != NN. -/
def execOP4XNN (opcode : Nat) (s : Chip8State) : Option Chip8State := do
  let x := (opcode &&& 0x0f00) >>> 8
  let nn := opcode &&& 0x00ff
  let vx ← pyGet s.v_registers x
  if vx != nn then
    return { s with program_counter := s.program_counter + 2 }
  else
    return s

/-- OP5XY0.execute: skip next instruction if VX == VY. -/
def execOP5XY0 (opcode : Nat) (s : Chip8State) : Option Chip8State := do
  let x := (opcode &&& 0x0f00) >>> 8
  let y := (opcode &&& 0x00f0) >>> 4
  let vx ← pyGet s.v_registers x
  let vy ← pyGet s.v_registers y
  if vx == vy then
    return { s with program_counter := s.program_counter + 2 }
  else
    return s

/-- OP6XNN.execute: VX = NN. -/
def execOP6XNN (opcode : Nat) (s : Chip8State) : Option Chip8State := do
  let x := (opcode &&& 0x0f00) >>> 8
  let nn := opcode &&& 0x00ff
  setV s x nn

/-- OP7XNN.execute: VX += NN (no masking to 8 bits in the source). -/
def execOP7XNN (opcode : Nat) (s : Chip8State) : Option Chip8State := do
  let x := (opcode &&& 0x0f00) >>> 8
  let nn := opcode &&& 0x00ff
  let vx ← pyGet s.v_registers x
  setV s x (vx + nn)

/-- OP8XY0.execute: VX = VY. -/
def execOP8XY0 (opcode : Nat) (s : Chip8State) : Option Chip8State := do
  let x := (opcode &&& 0x0f00) >>> 8
  let y := (opcode &&& 0x00f0) >>> 4
  let vy ← pyGet s.v_registers y
  setV s x vy

/-- OP8XY1.execute: VX = VX | VY. -/
def execOP8XY1 (opcode : Nat) (s : Chip8State) : Option Chip8State := do
  let x := (opcode &&& 0x0f00) >>> 8
  let y := (opcode &&& 0x00f0) >>> 4
  let vx ← pyGet s.v_registers x
  let vy ← pyGet s.v_registers y
  setV s x (vx ||| vy)

/-- OP8XY2.execute: VX = VX & VY. -/
def execOP8XY2 (opcode : Nat) (s : Chip8State) : Option Chip8State := do
  let x := (opcode &&& 0x0f00) >>> 8
  let y := (opcode &&& 0x00f0) >>> 4
  let vx ← pyGet s.v_registers x
  let vy ← pyGet s.v_registers y
  setV s x (vx &&& vy)

/-- OP8XY3.execute: VX = VX ^ VY. -/
def execOP8XY3 (opcode : Nat) (s : Chip8State) : Option Chip8State := do
  let x := (opcode &&& 0x0f00) >>> 8
  let y := (opcode &&& 0x00f0) >>> 4
  let vx ← pyGet s.v_registers x
  let vy ← pyGet s.v_registers y
  setV s x (vx ^^^ vy)

/-- OP8XY4.execute: result = vx + vy; carry = 1 if result > 0xff else 0;
VX = result % 0xff (sic: modulo 255, exactly as in the source); VF = carry.
The write to VX happens before the write to VF. -/
def execOP8XY4 (opcode : Nat) (s : Chip8State) : Option Chip8State := do
  let x := (opcode &&& 0x0f00) >>> 8
  let y := (opcode &&& 0x00f0) >>> 4
  let vx ← pyGet s.v_registers x
  let vy ← pyGet s.v_registers y
  let result := vx + vy
  let carry := if result > 0xff then 1 else 0
  let s ← setV s x (result % 0xff)
  setV s 15 carry

/-- OP8XY5.execute: result = vx - vy (a Python integer, possibly negative);
if result < 0 then borrow = 1 and result += 0xff else borrow = 0;
VX = result; VF = 1 - borrow.  The intermediate value is computed in Int and
converted back with toNat at the store (exact whenever vy <= vx + 255, which
holds for all byte-valued registers). -/
def execOP8XY5 (opcode : Nat) (s : Chip8State) : Option Chip8State := do
  let x := (opcode &&& 0x0f00) >>> 8
  let y := (opcode &&& 0x00f0) >>> 4
  let vx ← pyGet s.v_registers x
  let vy ← pyGet s.v_registers y
  let result : Int := (vx : Int) - (vy : Int)
  let borrow : Nat := if result < 0 then 1 else 0
  let result : Int := if result < 0 then result + 0xff else result
  let s ← setV s x result.toNat
  setV s 15 (1 - borrow)

/-- OP8XY6.execute: VF = vx & 1 (the pre-shift least significant bit),
then VX = vx >> 1.  The flag write happens first, so when X = 0xF the
shifted value overwrites the flag. -/
def execOP8XY6 (opcode : Nat) (s : Chip8State) : Option Chip8State := do
  let x := (opcode &&& 0x0f00) >>> 8
  let vx ← pyGet s.v_registers x
  let lsb := vx &&& 1
  let s ← setV s 15 lsb
  setV s x (vx >>> 1)

/-- OP8XY7.execute: result = vy - vx, with the same borrow normalisation as
OP8XY5; VX = result; VF = 1 - borrow. -/
def execOP8XY7 (opcode : Nat) (s : Chip8State) : Option Chip8State := do
  let x := (opcode &&& 0x0f00) >>> 8
  let y := (opcode &&& 0x00f0) >>> 4
  let vx ← pyGet s.v_registers x
  let vy ← pyGet s.v_registers y
  let result : Int := (vy : Int) - (vx : Int)
  let borrow : Nat := if result < 0 then 1 else 0
  let result : Int := if result < 0 then result + 0xff else result
  let s ← setV s x result.toNat
  setV s 15 (1 - borrow)

/-- OP8XYE.execute: VF = vx >> 7 (the pre-shift bit 7; larger than 1 when the
register holds a value above 8 bits, which the source never truncates),
then VX = vx << 1. -/
def execOP8XYE (opcode : Nat) (s : Chip8State) : Option Chip8State := do
  let x := (opcode &&& 0x0f00) >>> 8
  let vx ← pyGet s.v_registers x
  let msb := vx >>> 7
  let s ← setV s 15 msb
  setV s x (vx <<< 1)

/-- OP9XY0.execute: skip next instruction if VX != VY. -/
def execOP9XY0 (opcode : Nat) (s : Chip8State) : Option Chip8State := do
  let x := (opcode &&& 0x0f00) >>> 8
  let y := (opcode &&& 0x00f0) >>> 4
  let vx ← pyGet s.v_registers x
  let vy ← pyGet s.v_registers y
  if vx != vy then
    return { s with program_counter := s.program_counter + 2 }
  else
    return s

/-- OPANNN.execute: I = NNN. -/
def execOPANNN (opcode : Nat) (s : Chip8State) : Option Chip8State :=
  let nnn := opcode &&& 0x0fff
  some { s with i_register := nnn }

/-- OPBNNN.execute: program_counter = nnn + V0 - 2. -/
def execOPBNNN (opcode : Nat) (s : Chip8State) : Option Chip8State := do
  let nnn := opcode &&& 0x0fff
  let v0 ← pyGet s.v_registers 0
  return { s with program_counter := nnn + v0 - 2 }

/-- OPCXNN.execute: VX = rnd & NN, where rnd is the value returned by
random.randint(0, 255). -/
def execOPCXNN (rnd : Nat) (opcode : Nat) (s : Chip8State) : Option Chip8State := do
  let x := (opcode &&& 0x0f00) >>> 8
  let nn := opcode &&& 0x00ff
  setV s x (rnd &&& nn)

/-- Innermost loop body of OPDXYN.execute for one column offset x_offset in
[0, 8): both coordinates are reduced modulo the screen dimensions, the
sprite bit is XORed onto the pixel, and VF is set to 1 on collision
(before the pixel write, as in the source). -/
def drawPixel (vx yc sprite_row : Nat) (s : Chip8State) (x_offset : Nat) :
    Option Chip8State := do
  let xc := (vx + x_offset) % SCREEN_WIDTH
  let yc := yc % SCREEN_HEIGHT
  let current_pixel ← get_pixel s xc yc
  let sprite_pixel := if sprite_row &&& (1 <<< (7 - x_offset)) == 0 then 0 else 1
  let new_pixel := current_pixel ^^^ sprite_pixel
  let s ← if current_pixel == 1 && sprite_pixel == 1 then setV s 15 1 else pure s
  set_pixel s xc yc new_pixel

/-- One row of OPDXYN.execute: sprite_row = memory[i + y_offset], then the
eight column offsets in order. -/
def drawSpriteRow (i vx vy : Nat) (s : Chip8State) (y_offset : Nat) :
    Option Chip8State := do
  let sprite_row ← pyGet s.memory (i + y_offset)
  (List.range 8).foldlM (drawPixel vx (vy + y_offset) sprite_row) s

/-- Body of OPDXYN.execute after the operand reads: VF = 0, then the rows
y_offset in [0, n) in order. -/
def drawSprite (i vx vy n : Nat) (s : Chip8State) : Option Chip8State := do
  let s ← setV s 15 0
  (List.range n).foldlM (drawSpriteRow i vx vy) s

/-- OPDXYN.execute: draw the n-row sprite at memory[i..] at position (VX, VY)
with XOR compositing, toroidal wraparound and collision detection in VF. -/
def execOPDXYN (opcode : Nat) (s : Chip8State) : Option Chip8State := do
  let x := (opcode &&& 0x0f00) >>> 8
  let y := (opcode &&& 0x00f0) >>> 4
  let n := opcode &&& 0x000f
  let vx ← pyGet s.v_registers x
  let vy ← pyGet s.v_registers y
  let i := s.i_register
  drawSprite i vx vy n s

/-- OPEX9E.execute: skip next instruction if inputs[VX] == 1. -/
def execOPEX9E (opcode : Nat) (s : Chip8State) : Option Chip8State := do
  let x := (opcode &&& 0x0f00) >>> 8
  let vx ← pyGet s.v_registers x
  let key ← pyGet s.inputs vx
  if key == 1 then
    return { s with program_counter := s.program_counter + 2 }
  else
    return s

/-- OPEXA1.execute: skip next instruction if inputs[VX] == 0. -/
def execOPEXA1 (opcode : Nat) (s : Chip8State) : Option Chip8State := do
  let x := (opcode &&& 0x0f00) >>> 8
  let vx ← pyGet s.v_registers x
  let key ← pyGet s.inputs vx
  if key == 0 then
    return { s with program_counter := s.program_counter + 2 }
  else
    return s

/-- OPFX07.execute: VX = delay_timer. -/
def execOPFX07 (opcode : Nat) (s : Chip8State) : Option Chip8State := do
  let x := (opcode &&& 0x0f00) >>> 8
  setV s x s.delay_timer

/-- OPFX0A.execute: VX = rnd, where rnd is the value returned by the
placeholder random.randint(0, 15) (the key wait is unimplemented). -/
def execOPFX0A (rnd : Nat) (opcode : Nat) (s : Chip8State) : Option Chip8State := do
  let x := (opcode &&& 0x0f00) >>> 8
  setV s x rnd

/-- OPFX15.execute: the source computes vx and then runs
`self.delay_timer = vx`, where self is the OPFX15 instruction object, not
the CPU; the assignment creates an attribute on the instruction object and
the CPU state, including cpu.delay_timer, is left unchanged. -/
def execOPFX15 (opcode : Nat) (s : Chip8State) : Option Chip8State := do
  let x := (opcode &&& 0x0f00) >>> 8
  let _vx ← pyGet s.v_registers x
  return s

/-- OPFX18.execute: likewise `self.sound_timer = vx` writes an attribute of
the instruction object; cpu.sound_timer is left unchanged. -/
def execOPFX18 (opcode : Nat) (s : Chip8State) : Option Chip8State := do
  let x := (opcode &&& 0x0f00) >>> 8
  let _vx ← pyGet s.v_registers x
  return s

/-- OPFX1E.execute: result = i + vx; VF = 1 if result > 0xfff else 0;
I = result % 0xfff (sic: modulo 4095, exactly as in the source). -/
def execOPFX1E (opcode : Nat) (s : Chip8State) : Option Chip8State := do
  let x := (opcode &&& 0x0f00) >>> 8
  let vx ← pyGet s.v_registers x
  let i := s.i_register
  let result := i + vx
  let s ← setV s 15 (if result > 0xfff then 1 else 0)
  return { s with i_register := result % 0xfff }

/-- OPFX29.execute: I = VX * 5. -/
def execOPFX29 (opcode : Nat) (s : Chip8State) : Option Chip8State := do
  let x := (opcode &&& 0x0f00) >>> 8
  let vx ← pyGet s.v_registers x
  return { s with i_register := vx * 5 }

/-- OPFX33.execute: store the decimal digits of VX at memory[i], memory[i+1],
memory[i+2].  math.floor of the float divisions equals natural division for
the register magnitudes involved. -/
def execOPFX33 (opcode : Nat) (s : Chip8State) : Option Chip8State := do
  let x := (opcode &&& 0x0f00) >>> 8
  let vx ← pyGet s.v_registers x
  let hundreds := vx / 100
  let vx := vx - hundreds * 100
  let tens := vx / 10
  let vx := vx - tens * 10
  let units := vx
  let i := s.i_register
  let mem ← pySet s.memory i hundreds
  let mem ← pySet mem (i + 1) tens
  let mem ← pySet mem (i + 2) units
  return { s with memory := mem }

/-- OPFX55.execute: memory[i : i + x + 1] = v_registers[0 : x + 1]
(Python slice assignment). -/
def execOPFX55 (opcode : Nat) (s : Chip8State) : Option Chip8State :=
  let x := (opcode &&& 0x0f00) >>> 8
  let i := s.i_register
  some { s with memory := pySliceSet s.memory i (i + x + 1) (pySlice s.v_registers 0 (x + 1)) }

/-- OPFX65.execute: v_registers[0 : x + 1] = memory[i : i + x + 1]
(Python slice assignment). -/
def execOPFX65 (opcode : Nat) (s : Chip8State) : Option Chip8State :=
  let x := (opcode &&& 0x0f00) >>> 8
  let i := s.i_register
  some { s with v_registers := pySliceSet s.v_registers 0 (x + 1) (pySlice s.memory i (i + x + 1)) }

/-- The 35 instruction handlers of the opcode table. -/
inductive Instr where
  | OP0NNN | OP00E0 | OP00EE | OP1NNN | OP2NNN | OP3XNN | OP4XNN | OP5XY0
  | OP6XNN | OP7XNN | OP8XY0 | OP8XY1 | OP8XY2 | OP8XY3 | OP8XY4 | OP8XY5
  | OP8XY6 | OP8XY7 | OP8XYE | OP9XY0 | OPANNN | OPBNNN | OPCXNN | OPDXYN
  | OPEX9E | OPEXA1 | OPFX07 | OPFX0A | OPFX15 | OPFX18 | OPFX1E | OPFX29
  | OPFX33 | OPFX55 | OPFX65
  deriving DecidableEq

/-- Chip8CPU.opcode_table, entry for entry: (mask, expected result,
instruction).  The first entry is (0xf000, 0x0fff, OP0NNN) exactly as in the
source. -/
def opcode_table : List (Nat × Nat × Instr) := [
  (0xf000, 0x0fff, Instr.OP0NNN),
  (0xffff, 0x00e0, Instr.OP00E0),
  (0xffff, 0x00ee, Instr.OP00EE),
  (0xf000, 0x1000, Instr.OP1NNN),
  (0xf000, 0x2000, Instr.OP2NNN),
  (0xf000, 0x3000, Instr.OP3XNN),
  (0xf000, 0x4000, Instr.OP4XNN),
  (0xf00f, 0x5000, Instr.OP5XY0),
  (0xf000, 0x6000, Instr.OP6XNN),
  (0xf000, 0x7000, Instr.OP7XNN),
  (0xf00f, 0x8000, Instr.OP8XY0),
  (0xf00f, 0x8001, Instr.OP8XY1),
  (0xf00f, 0x8002, Instr.OP8XY2),
  (0xf00f, 0x8003, Instr.OP8XY3),
  (0xf00f, 0x8004, Instr.OP8XY4),
  (0xf00f, 0x8005, Instr.OP8XY5),
  (0xf00f, 0x8006, Instr.OP8XY6),
  (0xf00f, 0x8007, Instr.OP8XY7),
  (0xf00f, 0x800e, Instr.OP8XYE),
  (0xf00f, 0x9000, Instr.OP9XY0),
  (0xf000, 0xa000, Instr.OPANNN),
  (0xf000, 0xb000, Instr.OPBNNN),
  (0xf000, 0xc000, Instr.OPCXNN),
  (0xf000, 0xd000, Instr.OPDXYN),
  (0xf0ff, 0xe09e, Instr.OPEX9E),
  (0xf0ff, 0xe0a1, Instr.OPEXA1),
  (0xf0ff, 0xf007, Instr.OPFX07),
  (0xf0ff, 0xf00a, Instr.OPFX0A),
  (0xf0ff, 0xf015, Instr.OPFX15),
  (0xf0ff, 0xf018, Instr.OPFX18),
  (0xf0ff, 0xf01e, Instr.OPFX1E),
  (0xf0ff, 0xf029, Instr.OPFX29),
  (0xf0ff, 0xf033, Instr.OPFX33),
  (0xf0ff, 0xf055, Instr.OPFX55),
  (0xf0ff, 0xf065, Instr.OPFX65)
]

/-- Chip8CPU.decode: return the first table entry whose mask matches, or
nothing when no entry matches (the Python function falls off the end and
returns None). -/
def decode (opcode : Nat) : Option Instr :=
  (opcode_table.find? fun e => opcode &&& e.1 == e.2.1).map fun e => e.2.2

/-- Dispatch to the handler bodies (Chip8CPU.execute runs
instruction.execute(opcode)). -/
def execInstr (rnd : Nat) (ins : Instr) (opcode : Nat) (s : Chip8State) :
    Option Chip8State :=
  match ins with
  | .OP0NNN => execOP0NNN opcode s
  | .OP00E0 => execOP00E0 opcode s
  | .OP00EE => execOP00EE opcode s
  | .OP1NNN => execOP1NNN opcode s
  | .OP2NNN => execOP2NNN opcode s
  | .OP3XNN => execOP3XNN opcode s
  | .OP4XNN => execOP4XNN opcode s
  | .OP5XY0 => execOP5XY0 opcode s
  | .OP6XNN => execOP6XNN opcode s
  | .OP7XNN => execOP7XNN opcode s
  | .OP8XY0 => execOP8XY0 opcode s
  | .OP8XY1 => execOP8XY1 opcode s
  | .OP8XY2 => execOP8XY2 opcode s
  | .OP8XY3 => execOP8XY3 opcode s
  | .OP8XY4 => execOP8XY4 opcode s
  | .OP8XY5 => execOP8XY5 opcode s
  | .OP8XY6 => execOP8XY6 opcode s
  | .OP8XY7 => execOP8XY7 opcode s
  | .OP8XYE => execOP8XYE opcode s
  | .OP9XY0 => execOP9XY0 opcode s
  | .OPANNN => execOPANNN opcode s
  | .OPBNNN => execOPBNNN opcode s
  | .OPCXNN => execOPCXNN rnd opcode s
  | .OPDXYN => execOPDXYN opcode s
  | .OPEX9E => execOPEX9E opcode s
  | .OPEXA1 => execOPEXA1 opcode s
  | .OPFX07 => execOPFX07 opcode s
  | .OPFX0A => execOPFX0A rnd opcode s
  | .OPFX15 => execOPFX15 opcode s
  | .OPFX18 => execOPFX18 opcode s
  | .OPFX1E => execOPFX1E opcode s
  | .OPFX29 => execOPFX29 opcode s
  | .OPFX33 => execOPFX33 opcode s
  | .OPFX55 => execOPFX55 opcode s
  | .OPFX65 => execOPFX65 opcode s

/-- Chip8CPU.fetch: (memory[pc] << 8) + memory[pc + 1]; reads only. -/
def fetch (s : Chip8State) : Option Nat := do
  let hi ← pyGet s.memory s.program_counter
  let lo ← pyGet s.memory (s.program_counter + 1)
  return (hi <<< 8) + lo

/-- Chip8CPU.update_pc: program_counter += 2. -/
def update_pc (s : Chip8State) : Chip8State :=
  { s with program_counter := s.program_counter + 2 }

/-- Chip8CPU.update_timers: each timer is decremented when positive. -/
def update_timers (s : Chip8State) : Chip8State :=
  let s := if s.delay_timer > 0 then { s with delay_timer := s.delay_timer - 1 } else s
  if s.sound_timer > 0 then { s with sound_timer := s.sound_timer - 1 } else s

/-- Chip8CPU.cycle: fetch, decode, execute, update_pc.  When decode returns
no handler, Chip8CPU.execute calls .execute on None and the cycle raises
AttributeError, modelled as none. -/
def cycle (rnd : Nat) (s : Chip8State) : Option Chip8State := do
  let opcode ← fetch s
  let ins ← decode opcode
  let s ← execInstr rnd ins opcode s
  return update_pc s

def testState : Chip8State :=
  { memory := [0],
    program_counter := START_ADDRESS,
    stack := [],
    v_registers := List.replicate 16 0,
    i_register := 0,
    delay_timer := 0,
    sound_timer := 0,
    inputs := List.replicate 16 0,
    screen := [List.replicate 8 0] }

def rtState : Chip8State :=
  { testState with
      memory := List.replicate 8 99
      v_registers := [1, 2, 3, 4, 5, 6, 7, 8, 9, 10, 11, 12, 13, 14, 15, 16]
      i_register := 2 }

/-- Register file 200, 100, 0, ..., 0: an overflowing ADD input. -/
def chip8WitnessC1 : Chip8State :=
  { testState with v_registers := 200 :: 100 :: List.replicate 14 0 }

/-- The register file produced by 8XY4 on register list l: VX gets
(vx + vy) % 0xff, then VF gets the carry bit. -/
def regsAfterOP8XY4 (opcode : Nat) (l : List Nat) : List Nat :=
  (l.set ((opcode &&& 0x0f00) >>> 8)
      ((l.getD ((opcode &&& 0x0f00) >>> 8) 0 + l.getD ((opcode &&& 0x00f0) >>> 4) 0) % 0xff)).set
    15
    (if l.getD ((opcode &&& 0x0f00) >>> 8) 0 + l.getD ((opcode &&& 0x00f0) >>> 4) 0 > 0xff
      then 1 else 0)

/-- Register file 5, 0, ..., 0 with both timers at 0. -/
def timerBugState : Chip8State :=
  { testState with v_registers := 5 :: List.replicate 15 0 }

/-- Memory whose first instruction word is 0x5001, an opcode (5XY0 family
with a nonzero low nibble) that matches no entry of the decode table. -/
def unmatchedState : Chip8State :=
  { testState with memory := [0x50, 0x01], program_counter := 0 }

/-- A state whose delay and sound timers both read 2. -/
def timerTickState : Chip8State :=
  { testState with delay_timer := 2, sound_timer := 2 }

/-- Memory holding the instruction word 0xABCD at address 0 of a full
4096-byte memory. -/
def fetchState : Chip8State :=
  { testState with memory := 0xAB :: 0xCD :: List.replicate 4094 0, program_counter := 0 }

/-- The flag register VF reads exactly 0 or 1. -/
def flag01 (s : Chip8State) : Prop :=
  s.v_registers.get? 15 = some 0 ∨ s.v_registers.get? 15 = some 1

instance (s : Chip8State) : Decidable (flag01 s) := by
  unfold flag01
  infer_instance

/-- Register file with VF = 1 and all other registers 0. -/
def oneFlagState : Chip8State :=
  { testState with v_registers := List.replicate 15 0 ++ [1] }

/-- Register file with VF = 4 and all other registers 0. -/
def shiftFlagState : Chip8State :=
  { testState with v_registers := List.replicate 15 0 ++ [4] }

/-- Register file with VF = 2 and all other registers 0. -/
def shiftFlagResult : Chip8State :=
  { testState with v_registers := List.replicate 15 0 ++ [2] }

/-- The fully cleared 64x32 framebuffer. -/
def clearScreen : List (List Nat) := List.replicate 32 (List.replicate 64 0)

/-- Cleared framebuffer, I = 0, memory[0] = 0xFF, all registers 0. -/
def spriteState : Chip8State :=
  { testState with memory := [0xff], screen := clearScreen }

/-- Expected state after drawing the 0xFF row once at (0, 0): the first 8
pixels of row 0 set, VF = 0. -/
def spriteOnceState : Chip8State :=
  { spriteState with
      screen := (List.replicate 8 1 ++ List.replicate 56 0) ::
        List.replicate 31 (List.replicate 64 0) }

/-- Expected state after drawing the same sprite twice: framebuffer cleared
again, VF = 1. -/
def spriteTwiceState : Chip8State :=
  { spriteState with v_registers := List.replicate 15 0 ++ [1] }

/-- The cleared framebuffer with V0 = 60 (the x coordinate), V1 = 0 (the y
coordinate), I = 0 and memory[0] = 0xFF. -/
def wrapState : Chip8State :=
  { testState with
      memory := [0xff]
      screen := clearScreen
      v_registers := 60 :: List.replicate 15 0 }

/-- Expected state after drawing the 0xFF row at x = 60: row 0 has columns
60..63 set and columns 0..3 set by wraparound. -/
def wrapResult : Chip8State :=
  { wrapState with
      screen := (List.replicate 4 1 ++ (List.replicate 56 0 ++ List.replicate 4 1)) ::
        List.replicate 31 (List.replicate 64 0) }

theorem nibbleX_lt (opcode : Nat) : (opcode &&& 0x0f00) >>> 8 < 16 := by
  have h : opcode &&& 0x0f00 ≤ 0x0f00 := Nat.and_le_right
  rw [Nat.shiftRight_eq_div_pow]
  have h2 : (2 : Nat) ^ 8 = 256 := by norm_num
  rw [h2]
  omega

theorem nibbleY_lt (opcode : Nat) : (opcode &&& 0x00f0) >>> 4 < 16 := by
  have h : opcode &&& 0x00f0 ≤ 0x00f0 := Nat.and_le_right
  rw [Nat.shiftRight_eq_div_pow]
  have h2 : (2 : Nat) ^ 4 = 16 := by norm_num
  rw [h2]
  omega

theorem pyGet_lt {l : List Nat} {i : Nat} (h : i < l.length) :
    pyGet l i = some (l.getD i 0) := by
  rw [pyGet, List.getD_eq_get?]
  cases hg : l.get? i with
  | none => rw [List.get?_eq_none] at hg; omega
  | some a => simp [hg]

theorem setV_eq_some (s : Chip8State) (i v : Nat) (h : i < s.v_registers.length) :
    setV s i v = some { s with v_registers := s.v_registers.set i v } := by
  simp [setV, pySet, h]

/-- Helper: full characterisation of executing 8XY4 on a 16-register state. -/
theorem execOP8XY4_eq (opcode : Nat) (s : Chip8State)
    (h16 : s.v_registers.length = 16) :
    execOP8XY4 opcode s =
      some { s with v_registers := regsAfterOP8XY4 opcode s.v_registers } := by
  have hx : (opcode &&& 0x0f00) >>> 8 < s.v_registers.length := h16 ▸ nibbleX_lt opcode
  have hy : (opcode &&& 0x00f0) >>> 4 < s.v_registers.length := h16 ▸ nibbleY_lt opcode
  simp only [execOP8XY4, pyGet_lt hx, pyGet_lt hy, Option.bind_eq_bind, Option.some_bind]
  rw [setV_eq_some _ _ _ hx]
  simp only [Option.some_bind]
  rw [setV_eq_some]
  · simp only [regsAfterOP8XY4]
  · simp only [List.length_set]
    omega

/-- C1: for the ADD-with-carry instruction 8XY4, executed on any state whose
register file has its 16 entries, VF afterwards is 1 exactly when the
unsigned sum VX + VY exceeds 255 and 0 otherwise, and (whenever X is not the
flag register itself) VX afterwards holds (VX + VY) % 0xff, i.e. the sum
reduced modulo 255, not modulo 256. -/
theorem OP8XY4_carry_and_mod255 (opcode : Nat) (s : Chip8State)
    (h16 : s.v_registers.length = 16) :
    ((execOP8XY4 opcode s).bind fun t => t.v_registers.get? 15) =
      some (if s.v_registers.getD ((opcode &&& 0x0f00) >>> 8) 0 +
          s.v_registers.getD ((opcode &&& 0x00f0) >>> 4) 0 > 0xff then 1 else 0) ∧
    ((opcode &&& 0x0f00) >>> 8 ≠ 15 →
      ((execOP8XY4 opcode s).bind fun t => t.v_registers.get? ((opcode &&& 0x0f00) >>> 8)) =
        some ((s.v_registers.getD ((opcode &&& 0x0f00) >>> 8) 0 +
            s.v_registers.getD ((opcode &&& 0x00f0) >>> 4) 0) % 0xff)) := by
  have hx : (opcode &&& 0x0f00) >>> 8 < s.v_registers.length := h16 ▸ nibbleX_lt opcode
  have h15 : (15 : Nat) < (s.v_registers.set ((opcode &&& 0x0f00) >>> 8)
      ((s.v_registers.getD ((opcode &&& 0x0f00) >>> 8) 0 +
        s.v_registers.getD ((opcode &&& 0x00f0) >>> 4) 0) % 0xff)).length := by
    simp only [List.length_set]
    omega
  rw [execOP8XY4_eq opcode s h16]
  simp only [Option.some_bind, regsAfterOP8XY4]
  constructor
  · rw [List.get?_set_eq_of_lt _ h15]
  · intro hne
    rw [List.get?_set_ne _ _ (fun h : (15 : Nat) = _ => hne h.symm),
      List.get?_set_eq_of_lt _ hx]

theorem OP8XY4_carry_and_mod255_witness :
    (chip8WitnessC1.v_registers.length = 16 ∧ (0x8014 &&& 0x0f00) >>> 8 ≠ 15) ∧
    ((execOP8XY4 0x8014 chip8WitnessC1).bind fun t => t.v_registers.get? 15) = some 1 ∧
    ((execOP8XY4 0x8014 chip8WitnessC1).bind fun t => t.v_registers.get? 0) =
      some ((200 + 100) % 0xff) := by
  refine ⟨⟨by decide, by decide⟩, ?_, ?_⟩
  · have h := (OP8XY4_carry_and_mod255 0x8014 chip8WitnessC1 (by decide)).1
    simpa using h
  · have h := (OP8XY4_carry_and_mod255 0x8014 chip8WitnessC1 (by decide)).2 (by decide)
    simpa using h

/-- C2: refuted by the code.  Executing FX15 and FX18 with VX = 5 leaves the
whole CPU state unchanged: the source assigns self.delay_timer and
self.sound_timer on the instruction object instead of the CPU, so the CPU
timers still read 0, and a subsequent FX07 delay-timer read into V1 observes
0, not the 5 the claim promises. -/
theorem OPFX15_OPFX18_write_lost :
    execOPFX15 0xF015 timerBugState = some timerBugState ∧
    execOPFX18 0xF018 timerBugState = some timerBugState ∧
    timerBugState.v_registers.getD 0 0 = 5 ∧
    timerBugState.delay_timer = 0 ∧
    timerBugState.sound_timer = 0 ∧
    (((execOPFX15 0xF015 timerBugState).bind (execOPFX07 0xF107)).bind
      fun t => t.v_registers.get? 1) = some 0 := by
  decide

/-- C3: refuted by the code.  The OP0NNN table entry is
(mask 0xf000, pattern 0x0fff); opcode & 0xf000 always has its low twelve
bits clear, so the entry never matches, and a 0x0NNN opcode such as 0x0123
decodes to no handler at all instead of the legacy call-native handler.
The 0x00E0 / 0x00EE entries still decode (they precede the fallback), and
the OP0NNN handler body itself would indeed change no state. -/
theorem OP0NNN_decode_dead :
    decode 0x0123 = none ∧
    decode 0x0abc = none ∧
    decode 0x00e0 = some Instr.OP00E0 ∧
    decode 0x00ee = some Instr.OP00EE ∧
    (∀ opcode s, execOP0NNN opcode s = some s) :=
  ⟨by decide, by decide, by decide, by decide, fun _ _ => rfl⟩

/-- C4 counterexample: at an opcode that matches no decode-table entry the
cycle does not complete normally with the uniform pc increment by 2; it
aborts (Chip8CPU.execute calls .execute on None, raising AttributeError,
modelled by none). -/
theorem unmatched_opcode_cycle_crashes :
    cycle 0 unmatchedState = none ∧
    cycle 0 unmatchedState ≠ some (update_pc unmatchedState) := by
  decide

/-- C4 amended: when fetch succeeds and the fetched opcode matches no entry
of the decode table, the cycle aborts with an error instead of completing;
no state change and no program-counter increment occur. -/
theorem unmatched_opcode_cycle_aborts (rnd : Nat) (s : Chip8State) (opcode : Nat)
    (hf : fetch s = some opcode) (hd : decode opcode = none) :
    cycle rnd s = none := by
  simp [cycle, hf, hd]

theorem unmatched_opcode_cycle_aborts_witness :
    fetch unmatchedState = some 0x5001 ∧
    decode 0x5001 = none ∧
    cycle 0 unmatchedState = none :=
  ⟨by decide, by decide,
    unmatched_opcode_cycle_aborts 0 unmatchedState 0x5001 (by decide) (by decide)⟩

/-- C8: a timer tick decrements each timer exactly when it is positive and
leaves it unchanged at 0, so timers never go below 0; concretely, starting
from delay_timer = 2 two ticks reach 0 and a third tick stays at 0. -/
theorem update_timers_spec :
    (∀ s : Chip8State,
      (update_timers s).delay_timer =
        (if 0 < s.delay_timer then s.delay_timer - 1 else s.delay_timer) ∧
      (update_timers s).sound_timer =
        (if 0 < s.sound_timer then s.sound_timer - 1 else s.sound_timer)) ∧
    (update_timers (update_timers timerTickState)).delay_timer = 0 ∧
    (update_timers (update_timers (update_timers timerTickState))).delay_timer = 0 ∧
    (update_timers (update_timers timerTickState)).sound_timer = 0 ∧
    (update_timers (update_timers (update_timers timerTickState))).sound_timer = 0 := by
  refine ⟨fun s => ?_, by decide, by decide, by decide, by decide⟩
  by_cases hd : 0 < s.delay_timer <;> by_cases hs : 0 < s.sound_timer <;>
    simp [update_timers, hd, hs]

/-- C10: on a 4096-byte memory, whenever pc + 1 < 4096 the fetch returns
memory[pc] * 256 + memory[pc + 1] (big-endian byte order); fetch is a pure
read and returns only the opcode. -/
theorem fetch_big_endian (s : Chip8State) (hlen : s.memory.length = 4096)
    (hpc : s.program_counter + 1 < 4096) :
    fetch s = some (s.memory.getD s.program_counter 0 * 256 +
      s.memory.getD (s.program_counter + 1) 0) := by
  have h1 : s.program_counter < s.memory.length := by omega
  have h2 : s.program_counter + 1 < s.memory.length := by omega
  simp only [fetch, pyGet_lt h1, pyGet_lt h2, Option.bind_eq_bind, Option.some_bind]
  rw [Nat.shiftLeft_eq]
  norm_num

theorem fetch_big_endian_witness :
    fetchState.memory.length = 4096 ∧
    fetchState.program_counter + 1 < 4096 ∧
    fetch fetchState = some (fetchState.memory.getD fetchState.program_counter 0 * 256 +
      fetchState.memory.getD (fetchState.program_counter + 1) 0) := by
  have h1 : fetchState.memory.length = 4096 := by
    show (0xAB :: 0xCD :: List.replicate 4094 0).length = 4096
    rw [List.length_cons, List.length_cons, List.length_replicate]
  exact ⟨h1, by decide, fetch_big_endian fetchState h1 (by decide)⟩

theorem pySlice_zero (l : List Nat) (k : Nat) : pySlice l 0 k = l.take k := by
  rw [pySlice, List.drop_zero]

/-- Reading back the slice just written by a slice assignment whose start is
inside the list returns exactly the written elements (even when the write
runs past the end of the list, which extends it). -/
theorem pySlice_pySliceSet (m xs : List Nat) (i b : Nat)
    (hi : i ≤ m.length) (hb : b = i + xs.length) :
    pySlice (pySliceSet m i b xs) i b = xs := by
  subst hb
  have hti : (m.take i).length = i := by
    rw [List.length_take]; omega
  have hmax : max i (i + xs.length) = i + xs.length := by omega
  rw [pySliceSet, hmax, pySlice, List.append_assoc]
  rw [List.take_append_eq_append_take, hti]
  rw [List.take_all_of_le (by rw [hti]; omega)]
  rw [Nat.add_sub_cancel_left]
  rw [List.take_append_eq_append_take]
  rw [List.take_all_of_le (Nat.le_of_eq rfl), Nat.sub_self, List.take_zero,
    List.append_nil]
  rw [List.drop_append_eq_append_drop, hti]
  rw [List.drop_eq_nil_of_le (by rw [hti]), Nat.sub_self, List.drop_zero,
    List.nil_append]

/-- Writing a prefix of a list back over itself is the identity. -/
theorem pySliceSet_take_self (v : List Nat) (k : Nat) :
    pySliceSet v 0 k (v.take k) = v := by
  rw [pySliceSet, List.take_zero, List.nil_append, Nat.zero_max]
  exact List.take_append_drop k v

/-- C9: block store FX55 followed by block load FX65 with the same X and the
same in-range address I restores the register file exactly. -/
theorem FX55_FX65_roundtrip (opcode : Nat) (s : Chip8State)
    (h16 : s.v_registers.length = 16)
    (hi : s.i_register ≤ s.memory.length) :
    ((execOPFX55 opcode s).bind (execOPFX65 opcode)).map (fun t => t.v_registers) =
      some s.v_registers := by
  have hx : (opcode &&& 0x0f00) >>> 8 < 16 := nibbleX_lt opcode
  have hsl : (pySlice s.v_registers 0 ((opcode &&& 0x0f00) >>> 8 + 1)).length =
      (opcode &&& 0x0f00) >>> 8 + 1 := by
    rw [pySlice_zero, List.length_take]
    omega
  simp only [execOPFX55, execOPFX65, Option.some_bind, Option.map_some']
  rw [pySlice_pySliceSet _ _ _ _ hi (by omega)]
  rw [pySlice_zero]
  rw [pySliceSet_take_self]

theorem FX55_FX65_roundtrip_witness :
    rtState.v_registers.length = 16 ∧
    rtState.i_register ≤ rtState.memory.length ∧
    ((execOPFX55 0xF355 rtState).bind (execOPFX65 0xF355)).map (fun t => t.v_registers) =
      some rtState.v_registers :=
  ⟨by decide, by decide, FX55_FX65_roundtrip 0xF355 rtState (by decide) (by decide)⟩

theorem setV_some_imp {s : Chip8State} {i v : Nat} {t : Chip8State}
    (h : setV s i v = some t) :
    i < s.v_registers.length ∧ t = { s with v_registers := s.v_registers.set i v } := by
  by_cases hl : i < s.v_registers.length
  · rw [setV_eq_some s i v hl] at h
    exact ⟨hl, (Option.some.inj h).symm⟩
  · rw [setV, pySet] at h
    simp [hl] at h

theorem pyGet_getD {l : List Nat} {i a : Nat} (h : pyGet l i = some a) :
    l.getD i 0 = a := by
  rw [List.getD_eq_get?]
  rw [pyGet] at h
  rw [h]
  rfl

theorem flag01_setV {s t : Chip8State} {v : Nat} (hv : v = 0 ∨ v = 1)
    (h : setV s 15 v = some t) : flag01 t := by
  obtain ⟨hlt, ht⟩ := setV_some_imp h
  subst ht
  rcases hv with h0 | h1
  · left
    subst h0
    exact List.get?_set_eq_of_lt _ hlt
  · right
    subst h1
    exact List.get?_set_eq_of_lt _ hlt

theorem foldlM_option_inv {σ α : Type} (P : σ → Prop) (f : σ → α → Option σ)
    (hf : ∀ s a s', P s → f s a = some s' → P s') :
    ∀ (l : List α) (s s' : σ), P s → l.foldlM f s = some s' → P s' := by
  intro l
  induction l with
  | nil =>
      intro s s' hP h
      simp only [List.foldlM_nil] at h
      exact (Option.some.inj h) ▸ hP
  | cons a t ih =>
      intro s s' hP h
      rw [List.foldlM_cons] at h
      cases hfa : f s a with
      | none => rw [hfa] at h; simp at h
      | some s1 =>
          rw [hfa] at h
          simp only [Option.bind_eq_bind, Option.some_bind] at h
          exact ih s1 s' (hf s a s1 hP hfa) h

theorem set_pixel_v_registers {s t : Chip8State} {x y v : Nat}
    (h : set_pixel s x y v = some t) : t.v_registers = s.v_registers := by
  simp only [set_pixel, Option.bind_eq_bind] at h
  cases hr : s.screen.get? y with
  | none => rw [hr] at h; simp at h
  | some row =>
      rw [hr] at h
      simp only [Option.some_bind] at h
      by_cases hx : x < row.length
      · simp only [hx, if_true] at h
        obtain rfl := Option.some.inj h
        rfl
      · simp [hx] at h

theorem drawPixel_flag01 (vx yc r : Nat) (s : Chip8State) (j : Nat) (t : Chip8State)
    (hP : flag01 s) (h : drawPixel vx yc r s j = some t) : flag01 t := by
  simp only [drawPixel, Option.bind_eq_bind] at h
  cases hg : get_pixel s ((vx + j) % SCREEN_WIDTH) (yc % SCREEN_HEIGHT) with
  | none => rw [hg] at h; simp at h
  | some cur =>
      rw [hg] at h
      simp only [Option.some_bind] at h
      by_cases hc : (cur == 1 && (if r &&& (1 <<< (7 - j)) == 0 then 0 else 1) == 1) = true
      · rw [if_pos hc] at h
        cases hs2 : setV s 15 1 with
        | none => rw [hs2] at h; simp at h
        | some s2 =>
            rw [hs2] at h
            simp only [Option.some_bind] at h
            have h2 : flag01 s2 := flag01_setV (Or.inr rfl) hs2
            unfold flag01 at h2 ⊢
            rw [set_pixel_v_registers h]
            exact h2
      · rw [if_neg hc] at h
        simp only [Option.pure_def, Option.some_bind] at h
        unfold flag01 at hP ⊢
        rw [set_pixel_v_registers h]
        exact hP

theorem drawSpriteRow_flag01 (i vx vy : Nat) (s : Chip8State) (k : Nat) (t : Chip8State)
    (hP : flag01 s) (h : drawSpriteRow i vx vy s k = some t) : flag01 t := by
  simp only [drawSpriteRow, Option.bind_eq_bind] at h
  cases hm : pyGet s.memory (i + k) with
  | none => rw [hm] at h; simp at h
  | some r =>
      rw [hm] at h
      simp only [Option.some_bind] at h
      exact foldlM_option_inv flag01 _
        (fun s a s' hp hf => drawPixel_flag01 _ _ _ _ _ _ hp hf) _ s t hP h

theorem drawSprite_flag01 (i vx vy n : Nat) (s t : Chip8State)
    (h : drawSprite i vx vy n s = some t) : flag01 t := by
  simp only [drawSprite, Option.bind_eq_bind] at h
  cases hs0 : setV s 15 0 with
  | none => rw [hs0] at h; simp at h
  | some s1 =>
      rw [hs0] at h
      simp only [Option.some_bind] at h
      have h1 : flag01 s1 := flag01_setV (Or.inl rfl) hs0
      exact foldlM_option_inv flag01 _
        (fun s a s' hp hf => drawSpriteRow_flag01 _ _ _ _ _ _ hp hf) _ s1 t h1 h

theorem OP8XY4_flag01 {opcode : Nat} {s t : Chip8State}
    (h : execOP8XY4 opcode s = some t) : flag01 t := by
  simp only [execOP8XY4, Option.bind_eq_bind] at h
  cases hvx : pyGet s.v_registers ((opcode &&& 0x0f00) >>> 8) with
  | none => rw [hvx] at h; simp at h
  | some vx =>
      rw [hvx] at h
      simp only [Option.some_bind] at h
      cases hvy : pyGet s.v_registers ((opcode &&& 0x00f0) >>> 4) with
      | none => rw [hvy] at h; simp at h
      | some vy =>
          rw [hvy] at h
          simp only [Option.some_bind] at h
          cases hs1 : setV s ((opcode &&& 0x0f00) >>> 8) ((vx + vy) % 0xff) with
          | none => rw [hs1] at h; simp at h
          | some s1 =>
              rw [hs1] at h
              simp only [Option.some_bind] at h
              refine flag01_setV ?_ h
              by_cases hc : vx + vy > 0xff <;> simp [hc]

theorem OP8XY5_flag01 {opcode : Nat} {s t : Chip8State}
    (h : execOP8XY5 opcode s = some t) : flag01 t := by
  simp only [execOP8XY5, Option.bind_eq_bind] at h
  cases hvx : pyGet s.v_registers ((opcode &&& 0x0f00) >>> 8) with
  | none => rw [hvx] at h; simp at h
  | some vx =>
      rw [hvx] at h
      simp only [Option.some_bind] at h
      cases hvy : pyGet s.v_registers ((opcode &&& 0x00f0) >>> 4) with
      | none => rw [hvy] at h; simp at h
      | some vy =>
          rw [hvy] at h
          simp only [Option.some_bind] at h
          cases hs1 : setV s ((opcode &&& 0x0f00) >>> 8)
              (if (vx : Int) - (vy : Int) < 0 then (vx : Int) - (vy : Int) + 0xff
                else (vx : Int) - (vy : Int)).toNat with
          | none => rw [hs1] at h; simp at h
          | some s1 =>
              rw [hs1] at h
              simp only [Option.some_bind] at h
              refine flag01_setV ?_ h
              by_cases hc : (vx : Int) - (vy : Int) < 0 <;> simp [hc]

theorem OP8XY7_flag01 {opcode : Nat} {s t : Chip8State}
    (h : execOP8XY7 opcode s = some t) : flag01 t := by
  simp only [execOP8XY7, Option.bind_eq_bind] at h
  cases hvx : pyGet s.v_registers ((opcode &&& 0x0f00) >>> 8) with
  | none => rw [hvx] at h; simp at h
  | some vx =>
      rw [hvx] at h
      simp only [Option.some_bind] at h
      cases hvy : pyGet s.v_registers ((opcode &&& 0x00f0) >>> 4) with
      | none => rw [hvy] at h; simp at h
      | some vy =>
          rw [hvy] at h
          simp only [Option.some_bind] at h
          cases hs1 : setV s ((opcode &&& 0x0f00) >>> 8)
              (if (vy : Int) - (vx : Int) < 0 then (vy : Int) - (vx : Int) + 0xff
                else (vy : Int) - (vx : Int)).toNat with
          | none => rw [hs1] at h; simp at h
          | some s1 =>
              rw [hs1] at h
              simp only [Option.some_bind] at h
              refine flag01_setV ?_ h
              by_cases hc : (vy : Int) - (vx : Int) < 0 <;> simp [hc]

theorem OPFX1E_flag01 {opcode : Nat} {s t : Chip8State}
    (h : execOPFX1E opcode s = some t) : flag01 t := by
  simp only [execOPFX1E, Option.bind_eq_bind] at h
  cases hvx : pyGet s.v_registers ((opcode &&& 0x0f00) >>> 8) with
  | none => rw [hvx] at h; simp at h
  | some vx =>
      rw [hvx] at h
      simp only [Option.some_bind] at h
      cases hs1 : setV s 15 (if s.i_register + vx > 0xfff then 1 else 0) with
      | none => rw [hs1] at h; simp at h
      | some s1 =>
          rw [hs1] at h
          simp only [Option.some_bind] at h
          obtain rfl := Option.some.inj h
          have h1 : flag01 s1 := by
            refine flag01_setV ?_ hs1
            by_cases hc : s.i_register + vx > 0xfff <;> simp [hc]
          exact h1

theorem OPDXYN_flag01 {opcode : Nat} {s t : Chip8State}
    (h : execOPDXYN opcode s = some t) : flag01 t := by
  simp only [execOPDXYN, Option.bind_eq_bind] at h
  cases hvx : pyGet s.v_registers ((opcode &&& 0x0f00) >>> 8) with
  | none => rw [hvx] at h; simp at h
  | some vx =>
      rw [hvx] at h
      simp only [Option.some_bind] at h
      cases hvy : pyGet s.v_registers ((opcode &&& 0x00f0) >>> 4) with
      | none => rw [hvy] at h; simp at h
      | some vy =>
          rw [hvy] at h
          simp only [Option.some_bind] at h
          exact drawSprite_flag01 _ _ _ _ _ _ h

theorem OP8XY6_flag01 {opcode : Nat} {s t : Chip8State}
    (hx : (opcode &&& 0x0f00) >>> 8 ≠ 15)
    (h : execOP8XY6 opcode s = some t) : flag01 t := by
  simp only [execOP8XY6, Option.bind_eq_bind] at h
  cases hvx : pyGet s.v_registers ((opcode &&& 0x0f00) >>> 8) with
  | none => rw [hvx] at h; simp at h
  | some vx =>
      rw [hvx] at h
      simp only [Option.some_bind] at h
      cases hs1 : setV s 15 (vx &&& 1) with
      | none => rw [hs1] at h; simp at h
      | some s1 =>
          rw [hs1] at h
          simp only [Option.some_bind] at h
          obtain ⟨hl1, ht1⟩ := setV_some_imp hs1
          obtain ⟨hl2, ht2⟩ := setV_some_imp h
          subst ht2
          simp only [flag01]
          rw [List.get?_set_ne _ _ hx]
          subst ht1
          rw [List.get?_set_eq_of_lt _ hl1]
          have hle : vx &&& 1 ≤ 1 := Nat.and_le_right
          rcases Nat.le_one_iff_eq_zero_or_eq_one.mp hle with h0 | h0 <;> simp [h0]

theorem OP8XYE_flag01 {opcode : Nat} {s t : Chip8State}
    (hx : (opcode &&& 0x0f00) >>> 8 ≠ 15)
    (hb : s.v_registers.getD ((opcode &&& 0x0f00) >>> 8) 0 ≤ 255)
    (h : execOP8XYE opcode s = some t) : flag01 t := by
  simp only [execOP8XYE, Option.bind_eq_bind] at h
  cases hvx : pyGet s.v_registers ((opcode &&& 0x0f00) >>> 8) with
  | none => rw [hvx] at h; simp at h
  | some vx =>
      rw [hvx] at h
      simp only [Option.some_bind] at h
      cases hs1 : setV s 15 (vx >>> 7) with
      | none => rw [hs1] at h; simp at h
      | some s1 =>
          rw [hs1] at h
          simp only [Option.some_bind] at h
          obtain ⟨hl1, ht1⟩ := setV_some_imp hs1
          obtain ⟨hl2, ht2⟩ := setV_some_imp h
          subst ht2
          simp only [flag01]
          rw [List.get?_set_ne _ _ hx]
          subst ht1
          rw [List.get?_set_eq_of_lt _ hl1]
          have hvb : vx ≤ 255 := by
            rw [pyGet_getD hvx] at hb
            exact hb
          have hle : vx >>> 7 ≤ 1 := by
            rw [Nat.shiftRight_eq_div_pow]
            have h128 : (2 : Nat) ^ 7 = 128 := by norm_num
            rw [h128]
            omega
          rcases Nat.le_one_iff_eq_zero_or_eq_one.mp hle with h0 | h0 <;> simp [h0]

/-- C5 counterexample: the right-shift instruction with X = 0xF (opcode
0x8F06) on a state with VF = 4 succeeds and leaves VF = 2, which is neither
0 nor 1, so the claim that VF is always exactly 0 or 1 after every
flag-defining instruction fails as stated. -/
theorem flag_register_binary_counterexample :
    execOP8XY6 0x8F06 shiftFlagState = some shiftFlagResult ∧
    ¬ flag01 shiftFlagResult := by
  decide

/-- C5 amended: after 8XY4, 8XY5, 8XY7, FX1E and DXYN, VF always reads
exactly 0 or 1; after the shifts this also holds provided X is not 0xF
itself (otherwise the shifted value overwrites the flag, as in the
counterexample), and for 8XYE provided VX fits in 8 bits (the source never
truncates registers, and bit 7 of a wider value exceeds 1). -/
theorem flag_register_binary (opcode : Nat) (s t : Chip8State) :
    (execOP8XY4 opcode s = some t → flag01 t) ∧
    (execOP8XY5 opcode s = some t → flag01 t) ∧
    (execOP8XY7 opcode s = some t → flag01 t) ∧
    (execOPFX1E opcode s = some t → flag01 t) ∧
    (execOPDXYN opcode s = some t → flag01 t) ∧
    ((opcode &&& 0x0f00) >>> 8 ≠ 15 →
      execOP8XY6 opcode s = some t → flag01 t) ∧
    ((opcode &&& 0x0f00) >>> 8 ≠ 15 →
      s.v_registers.getD ((opcode &&& 0x0f00) >>> 8) 0 ≤ 255 →
      execOP8XYE opcode s = some t → flag01 t) :=
  ⟨fun h => OP8XY4_flag01 h,
   fun h => OP8XY5_flag01 h,
   fun h => OP8XY7_flag01 h,
   fun h => OPFX1E_flag01 h,
   fun h => OPDXYN_flag01 h,
   fun hx h => OP8XY6_flag01 hx h,
   fun hx hb h => OP8XYE_flag01 hx hb h⟩

theorem flag_register_binary_witness :
    (execOP8XY4 0x8014 testState = some testState ∧ flag01 testState) ∧
    (execOP8XY5 0x8015 testState = some oneFlagState ∧ flag01 oneFlagState) ∧
    (execOP8XY7 0x8017 testState = some oneFlagState ∧ flag01 oneFlagState) ∧
    (execOPFX1E 0xF01E testState = some testState ∧ flag01 testState) ∧
    (execOPDXYN 0xD001 testState = some testState ∧ flag01 testState) ∧
    ((0x8016 &&& 0x0f00) >>> 8 ≠ 15 ∧
      execOP8XY6 0x8016 testState = some testState ∧ flag01 testState) ∧
    ((0x801E &&& 0x0f00) >>> 8 ≠ 15 ∧
      testState.v_registers.getD ((0x801E &&& 0x0f00) >>> 8) 0 ≤ 255 ∧
      execOP8XYE 0x801E testState = some testState ∧ flag01 testState) := by
  refine ⟨⟨by decide, (flag_register_binary 0x8014 testState testState).1 (by decide)⟩,
    ⟨by decide, (flag_register_binary 0x8015 testState oneFlagState).2.1 (by decide)⟩,
    ⟨by decide, (flag_register_binary 0x8017 testState oneFlagState).2.2.1 (by decide)⟩,
    ⟨by decide, (flag_register_binary 0xF01E testState testState).2.2.2.1 (by decide)⟩,
    ⟨by decide, (flag_register_binary 0xD001 testState testState).2.2.2.2.1 (by decide)⟩,
    ⟨by decide, by decide,
      (flag_register_binary 0x8016 testState testState).2.2.2.2.2.1 (by decide) (by decide)⟩,
    ⟨by decide, by decide, by decide,
      (flag_register_binary 0x801E testState testState).2.2.2.2.2.2 (by decide) (by decide)
        (by decide)⟩⟩

/-- C6: from a fully cleared framebuffer, drawing the 8x1 sprite 0xFF at
(0, 0) (opcode 0xD001, V0 = 0, I = 0, memory[I] = 0xFF) sets all eight
pixels of row 0, columns 0..7, with VF = 0; drawing it again clears those
eight pixels (XOR) and sets VF = 1. -/
theorem DXYN_xor_collision :
    execOPDXYN 0xD001 spriteState = some spriteOnceState ∧
    (spriteOnceState.screen.getD 0 []).take 8 = List.replicate 8 1 ∧
    spriteOnceState.v_registers.get? 15 = some 0 ∧
    execOPDXYN 0xD001 spriteOnceState = some spriteTwiceState ∧
    (spriteTwiceState.screen.getD 0 []).take 8 = List.replicate 8 0 ∧
    spriteTwiceState.screen = clearScreen ∧
    spriteTwiceState.v_registers.get? 15 = some 1 := by
  decide

theorem foldlM_option_congr {σ α : Type} (f g : σ → α → Option σ)
    (h : ∀ s a, f s a = g s a) :
    ∀ (l : List α) (s : σ), l.foldlM f s = l.foldlM g s := by
  intro l
  induction l with
  | nil => intro s; rfl
  | cons a t ih =>
      intro s
      rw [List.foldlM_cons, List.foldlM_cons, h s a]
      cases g s a with
      | none => rfl
      | some s1 =>
          simp only [Option.bind_eq_bind, Option.some_bind]
          exact ih s1

theorem drawPixel_mod (vx1 vx2 yc1 yc2 r : Nat)
    (hx : vx1 % 64 = vx2 % 64) (hy : yc1 % 32 = yc2 % 32)
    (s : Chip8State) (j : Nat) :
    drawPixel vx1 yc1 r s j = drawPixel vx2 yc2 r s j := by
  have h1 : (vx1 + j) % SCREEN_WIDTH = (vx2 + j) % SCREEN_WIDTH := by
    simp only [SCREEN_WIDTH]
    omega
  have h2 : yc1 % SCREEN_HEIGHT = yc2 % SCREEN_HEIGHT := by
    simp only [SCREEN_HEIGHT]
    omega
  rw [drawPixel, drawPixel, h1, h2]

theorem drawSpriteRow_mod (i vx1 vx2 vy1 vy2 : Nat)
    (hx : vx1 % 64 = vx2 % 64) (hy : vy1 % 32 = vy2 % 32)
    (s : Chip8State) (k : Nat) :
    drawSpriteRow i vx1 vy1 s k = drawSpriteRow i vx2 vy2 s k := by
  rw [drawSpriteRow, drawSpriteRow]
  cases hm : pyGet s.memory (i + k) with
  | none => rfl
  | some r =>
      simp only [Option.bind_eq_bind, Option.some_bind]
      exact foldlM_option_congr _ _
        (fun s2 j => drawPixel_mod vx1 vx2 (vy1 + k) (vy2 + k) r hx (by omega) s2 j) _ s

/-- The sprite position only matters modulo the screen dimensions. -/
theorem drawSprite_mod (i vx vy n : Nat) (s : Chip8State) :
    drawSprite i vx vy n s = drawSprite i (vx % 64) (vy % 32) n s := by
  rw [drawSprite, drawSprite]
  cases hs0 : setV s 15 0 with
  | none => rfl
  | some s1 =>
      simp only [Option.bind_eq_bind, Option.some_bind]
      exact foldlM_option_congr _ _
        (fun s2 k => drawSpriteRow_mod i vx (vx % 64) vy (vy % 32)
          (by omega) (by omega) s2 k) _ s1

/-- C7: in DXYN both sprite coordinates act modulo the screen dimensions
(64 and 32) for every VX, VY and N: a draw at any position equals the draw
at the reduced position, shifting the position by a full screen width and
height changes nothing, and concretely the 8-pixel row drawn at x = 60 on
the cleared framebuffer lands on columns 60..63 and wraps its last four
columns (the nominal columns 64..67) onto columns 0..3 instead of clipping
them. -/
theorem DXYN_wraparound :
    (∀ i vx vy n s, drawSprite i vx vy n s = drawSprite i (vx % 64) (vy % 32) n s) ∧
    (∀ i vx vy n s, drawSprite i (vx + 64) (vy + 32) n s = drawSprite i vx vy n s) ∧
    execOPDXYN 0xD011 wrapState = some wrapResult ∧
    (wrapResult.screen.getD 0 []).take 4 = List.replicate 4 1 ∧
    pySlice (wrapResult.screen.getD 0 []) 4 60 = List.replicate 56 0 ∧
    pySlice (wrapResult.screen.getD 0 []) 60 64 = List.replicate 4 1 := by
  refine ⟨drawSprite_mod, fun i vx vy n s => ?_, by decide, by decide, by decide, by decide⟩
  have h1 : (vx + 64) % 64 = vx % 64 := by omega
  have h2 : (vy + 32) % 32 = vy % 32 := by omega
  rw [drawSprite_mod i (vx + 64) (vy + 32) n s, h1, h2, ← drawSprite_mod]
